import Mathlib

/-!
Verification of the flap-control application (`src/applications/app_flap.c`).

The application is a single polling thread (`my_thread`).  We embed the body
of its `for(;;)` loop as a pure function `tick` from a state and the sampled
pad levels to the successor state together with the ordered list of calls the
body makes into the surrounding firmware (watchdog reset, logging, CAN and
motor commands, sleeps).  C `int` variables are embedded as `Int`; the float
duty computation is embedded over `ℚ`.
-/

namespace VescFlap

/-- The three GPIO pads polled each tick: `HW_ICU_GPIO/HW_ICU_PIN`,
`HW_UART_RX_PORT/PIN` and `HW_UART_TX_PORT/PIN` (lines 156-158). -/
inductive Pin where
  | icu
  | uart_rx
  | uart_tx
  deriving DecidableEq

/-- Observable calls the loop body makes into the surrounding firmware, in
program order: `timeout_reset`, `palReadPad` samples, `commands_printf`,
the call to `flap_toggle` (recorded with the direction it writes),
`comm_can_set_duty`, `mc_interface_set_duty`, `comm_can_set_current`,
`comm_can_set_current_brake`, `chThdSleepMilliseconds`. -/
inductive Event where
  | timeoutReset
  | samplePad (p : Pin) (level : Bool)
  | printf (line : String)
  | toggleDir (newDir : Int)
  | canSetDuty (id : Int) (duty : ℚ)
  | motorSetDuty (duty : ℚ)
  | canSetCurrent (id : Int) (current : ℚ)
  | canSetCurrentBrake (id : Int) (current : ℚ)
  | sleepMs (ms : Nat)
  deriving DecidableEq

/-- The mutable state of the application that survives from one loop
iteration to the next: the file-scope `flap_direction` (line 55) and
`cmd_flap_trigger` (line 50), and the loop-local `flap_hold_cnt`,
`pio_hold_cnt`, `rxpin_hold_cnt`, `flap_count_ms` (lines 139-143). -/
structure FlapState where
  flap_direction : Int
  cmd_flap_trigger : Bool
  flap_hold_cnt : Int
  pio_hold_cnt : Int
  rxpin_hold_cnt : Int
  flap_count_ms : Int
  deriving DecidableEq

/-- The electrical levels read from the three pads on one tick
(`palReadPad` results; the pads are pulled up, a pressed button reads
low, and the code negates the read). -/
structure TickInput where
  icu_pad : Bool
  rx_pad : Bool
  tx_pad : Bool
  deriving DecidableEq

/-- `#define FLAP_OPEN 0` (line 52). -/
def FLAP_OPEN : Int := 0

/-- `#define FLAP_CLOSE 1` (line 53). -/
def FLAP_CLOSE : Int := 1

/-- The direction update performed by `flap_toggle` (lines 58-63):
`if (flap_direction) flap_direction = 0; else flap_direction = 1;`. -/
def flap_toggle (d : Int) : Int :=
  if d ≠ 0 then 0 else 1

/-- The label printed by `flap_toggle` (line 64):
`flap_direction ? "open" : "close"`, evaluated on the new direction. -/
def direction_label (d : Int) : String :=
  if d ≠ 0 then "open" else "close"

/-- Modelled from the spec: the firmware helper `utils_map` is not under
`src/`; the spec describes the duty as "linearly mapped from DriveState
∈ \x7b0,1\x7d to [−maxDuty, +maxDuty] (0 → −maxDuty, 1 → +maxDuty)", i.e. the
affine interpolation sending `[in_min, in_max]` to `[out_min, out_max]`. -/
def utils_map (x in_min in_max out_min out_max : ℚ) : ℚ :=
  (x - in_min) * (out_max - out_min) / (in_max - in_min) + out_min

/-- The duty computed on a flap event (line 184):
`utils_map(flap_direction, 0.0, 1.0, -mcconf->l_max_duty, mcconf->l_max_duty)`. -/
def flap_duty (max_duty : ℚ) (d : Int) : ℚ :=
  utils_map (d : ℚ) 0 1 (-max_duty) max_duty

/-- One hold-counter update (lines 160-174): increment while the button is
active, otherwise decrement only while positive. -/
def hold_update (button : Bool) (cnt : Int) : Int :=
  if button then cnt + 1
  else if cnt > 0 then cnt - 1
  else cnt

/-- The flap condition of line 177, evaluated on the counter value this tick
computed: `(flap_hold_cnt > 10) || cmd_flap_trigger`. -/
def flapFires (s : FlapState) (i : TickInput) : Bool :=
  decide (hold_update (!i.tx_pad) s.flap_hold_cnt > 10) || s.cmd_flap_trigger

/-- The rxpin condition of line 191: `rxpin_hold_cnt > 5`.  The flap branch
does not touch `rxpin_hold_cnt`, so the condition only depends on the
pre-tick state and this tick's input. -/
def rxFires (s : FlapState) (i : TickInput) : Bool :=
  decide (hold_update (!i.rx_pad) s.rxpin_hold_cnt > 5)

/-- The pio condition of line 199: `pio_hold_cnt > 5`. -/
def pioFires (s : FlapState) (i : TickInput) : Bool :=
  decide (hold_update (!i.icu_pad) s.pio_hold_cnt > 5)

/-- The value of `flap_count_ms` after the flap branch: set to `8000` on a
toggle (line 183), otherwise unchanged. -/
def countdown_armed (s : FlapState) (i : TickInput) : Int :=
  if flapFires s i then 8000 else s.flap_count_ms

/-- The value of `flap_count_ms` at the end of the tick (lines 207-210):
`if (flap_count_ms > 0) flap_count_ms -= delay;` with `delay = 10`. -/
def countdown_after (s : FlapState) (i : TickInput) : Int :=
  if countdown_armed s i > 0 then countdown_armed s i - 10 else countdown_armed s i

/-- The calls made by the flap branch (lines 178-187), in order, given the
pre-toggle direction `d`: log, toggle (which itself logs the new
direction), CAN duty to peer 99, local motor duty, 500 ms hold. -/
def flapBlock (max_duty : ℚ) (d : Int) : List Event :=
  [Event.printf ("flap button pressed"),
   Event.toggleDir (flap_toggle d),
   Event.printf ("new flap direction " ++ direction_label (flap_toggle d) ++ "\n"),
   Event.canSetDuty 99 (flap_duty max_duty (flap_toggle d)),
   Event.motorSetDuty (flap_duty max_duty (flap_toggle d)),
   Event.sleepMs 500]

/-- The calls made by the rxpin branch (lines 192-195). -/
def rxBlock : List Event :=
  [Event.printf ("rxpin button pressed"),
   Event.canSetCurrent 99 1,
   Event.sleepMs 500]

/-- The calls made by the pio branch (lines 200-203). -/
def pioBlock : List Event :=
  [Event.printf ("piopin button pressed"),
   Event.canSetCurrentBrake 99 1,
   Event.sleepMs 500]

/-- One iteration of the `for(;;)` body of `my_thread` (lines 152-214), with
`stop_now` false: watchdog reset, pad sampling, the three counter updates,
the three conditional branches in order, the countdown update, and the
10 ms tick sleep.  Returns the successor state and the ordered trace of
firmware calls. -/
def tick (max_duty : ℚ) (s : FlapState) (i : TickInput) : FlapState × List Event :=
  ({ flap_direction :=
       if flapFires s i then flap_toggle s.flap_direction else s.flap_direction,
     cmd_flap_trigger :=
       if flapFires s i then false else s.cmd_flap_trigger,
     flap_hold_cnt :=
       if flapFires s i then 0 else hold_update (!i.tx_pad) s.flap_hold_cnt,
     pio_hold_cnt :=
       if pioFires s i then 0 else hold_update (!i.icu_pad) s.pio_hold_cnt,
     rxpin_hold_cnt :=
       if rxFires s i then 0 else hold_update (!i.rx_pad) s.rxpin_hold_cnt,
     flap_count_ms := countdown_after s i },
   Event.timeoutReset ::
   Event.samplePad Pin.icu i.icu_pad ::
   Event.samplePad Pin.uart_rx i.rx_pad ::
   Event.samplePad Pin.uart_tx i.tx_pad ::
   ((if flapFires s i then flapBlock max_duty s.flap_direction else []) ++
    (if rxFires s i then rxBlock else []) ++
    (if pioFires s i then pioBlock else []) ++
    (if countdown_after s i ≤ 0 then [Event.motorSetDuty 0] else []) ++
    [Event.sleepMs 10]))

/-- The loop body including the stop check of lines 147-150: when `stop_now`
is observed the iteration clears `is_running` and returns without touching
the state or calling any collaborator. -/
def loopBody (max_duty : ℚ) (stop_now : Bool) (s : FlapState) (i : TickInput) :
    Option (FlapState × List Event) :=
  if stop_now then none else some (tick max_duty s i)

/-- The terminal-command callback `flap` (lines 223-225): sets
`cmd_flap_trigger` from the command-interpreter context. -/
def flap_cmd (s : FlapState) : FlapState :=
  { s with cmd_flap_trigger := true }

/-- The state at thread start: `flap_direction = FLAP_OPEN` (line 55),
`cmd_flap_trigger = false` (line 50), all counters zero (lines 139-143). -/
def initState : FlapState :=
  { flap_direction := FLAP_OPEN, cmd_flap_trigger := false,
    flap_hold_cnt := 0, pio_hold_cnt := 0, rxpin_hold_cnt := 0,
    flap_count_ms := 0 }

/-- The input with no button pressed: all pulled-up pads read high. -/
def quiet : TickInput :=
  { icu_pad := true, rx_pad := true, tx_pad := true }

/-- Iterated quiet ticks after a state `s`. -/
def quietIter (max_duty : ℚ) (s : FlapState) : Nat → FlapState
  | 0 => s
  | k + 1 => (tick max_duty (quietIter max_duty s k) quiet).1

/-- Recognises the recorded `flap_toggle` call. -/
def isToggleEvt : Event → Bool
  | Event.toggleDir _ => true
  | _ => false

/-- Recognises a `comm_can_set_duty` call. -/
def isCanDutyEvt : Event → Bool
  | Event.canSetDuty _ _ => true
  | _ => false

/-- Recognises a `mc_interface_set_duty` call. -/
def isMotorDutyEvt : Event → Bool
  | Event.motorSetDuty _ => true
  | _ => false

/-- Recognises a `timeout_reset` call. -/
def isTimeoutEvt : Event → Bool
  | Event.timeoutReset => true
  | _ => false

/-- Number of `flap_toggle` calls recorded in a trace. -/
def countToggles (es : List Event) : Nat :=
  List.countP isToggleEvt es

/-- All three hold counters are nonnegative. -/
def countersNonneg (s : FlapState) : Prop :=
  0 ≤ s.flap_hold_cnt ∧ 0 ≤ s.pio_hold_cnt ∧ 0 ≤ s.rxpin_hold_cnt

instance (s : FlapState) : Decidable (countersNonneg s) := by
  unfold countersNonneg; infer_instance

/-- The start state with a pending external trigger (the `flap` terminal
command has run once). -/
def trigState : FlapState :=
  { initState with cmd_flap_trigger := true }

/-- The start state with the flap hold counter at 10, about to cross the
threshold on the next active tick. -/
def cnt10State : FlapState :=
  { initState with flap_hold_cnt := 10 }

/-- A state with a large flap hold count and a pending external trigger. -/
def cnt20TrigState : FlapState :=
  { initState with flap_hold_cnt := 20, cmd_flap_trigger := true }

/-- The input with only the flap button pressed: the UART TX pad reads low. -/
def pressTx : TickInput :=
  { icu_pad := true, rx_pad := true, tx_pad := false }

end VescFlap

namespace VescFlap

lemma hold_update_nonneg (b : Bool) (c : Int) (h : 0 ≤ c) : 0 ≤ hold_update b c := by
  unfold hold_update
  split
  · omega
  · split <;> omega

lemma flapFires_false (s : FlapState) (i : TickInput)
    (ht : s.cmd_flap_trigger = false) (hc : s.flap_hold_cnt ≤ 9) :
    flapFires s i = false := by
  simp only [flapFires, ht, Bool.or_false, decide_eq_false_iff_not, not_lt]
  unfold hold_update
  split
  · omega
  · split <;> omega

lemma countdown_after_fire (s : FlapState) (i : TickInput)
    (hf : flapFires s i = true) : countdown_after s i = 7990 := by
  simp [countdown_after, countdown_armed, hf]

lemma fire_counts (M : ℚ) (s : FlapState) (i : TickInput)
    (hf : flapFires s i = true) :
    countToggles (tick M s i).2 = 1 ∧
    List.countP isCanDutyEvt (tick M s i).2 = 1 ∧
    List.countP isMotorDutyEvt (tick M s i).2 = 1 ∧
    (tick M s i).1.flap_hold_cnt = 0 ∧
    (tick M s i).1.cmd_flap_trigger = false ∧
    (tick M s i).1.flap_count_ms = 7990 ∧
    (tick M s i).1.flap_direction = flap_toggle s.flap_direction ∧
    Event.canSetDuty 99 (flap_duty M (flap_toggle s.flap_direction)) ∈ (tick M s i).2 ∧
    Event.motorSetDuty (flap_duty M (flap_toggle s.flap_direction)) ∈ (tick M s i).2 := by
  have hcd := countdown_after_fire s i hf
  cases hr : rxFires s i <;> cases hp : pioFires s i <;>
    simp [tick, hf, hr, hp, hcd, flapBlock, rxBlock, pioBlock, countToggles,
      isToggleEvt, isCanDutyEvt, isMotorDutyEvt, List.countP_cons, List.countP_append]

lemma nofire_tick (M : ℚ) (s : FlapState) (i : TickInput)
    (hf : flapFires s i = false) :
    countToggles (tick M s i).2 = 0 ∧
    (tick M s i).1.cmd_flap_trigger = s.cmd_flap_trigger ∧
    (tick M s i).1.flap_hold_cnt = hold_update (!i.tx_pad) s.flap_hold_cnt ∧
    (tick M s i).1.flap_count_ms =
      (if s.flap_count_ms > 0 then s.flap_count_ms - 10 else s.flap_count_ms) ∧
    (Event.motorSetDuty 0 ∈ (tick M s i).2 ↔
      (if s.flap_count_ms > 0 then s.flap_count_ms - 10 else s.flap_count_ms) ≤ 0) := by
  have hcd : countdown_after s i =
      (if s.flap_count_ms > 0 then s.flap_count_ms - 10 else s.flap_count_ms) := by
    simp [countdown_after, countdown_armed, hf]
  cases hr : rxFires s i <;> cases hp : pioFires s i <;>
    [skip; skip; skip; skip] <;>
  · constructor
    · simp [tick, hf, hr, hp, rxBlock, pioBlock, countToggles,
        isToggleEvt, List.countP_cons, List.countP_append]
    refine ⟨by simp [tick, hf], by simp [tick, hf], by simp [tick, hcd], ?_⟩
    rw [hcd.symm]
    by_cases hz : countdown_after s i ≤ 0 <;>
      simp [tick, hf, hr, hp, rxBlock, pioBlock, hz]

lemma quiet_hold_zero : hold_update (!quiet.tx_pad) 0 = 0 := by
  simp [quiet, hold_update]

lemma quietIter_zero (M : ℚ) (s1 : FlapState)
    (h0 : s1.flap_hold_cnt = 0) (ht : s1.cmd_flap_trigger = false)
    (hc : s1.flap_count_ms = 7990) :
    (quietIter M s1 0).flap_hold_cnt = 0 ∧
    (quietIter M s1 0).cmd_flap_trigger = false ∧
    (quietIter M s1 0).flap_count_ms = max (7990 - 10 * ((0 : Nat) : Int)) 0 := by
  simp only [quietIter]
  refine ⟨h0, ht, ?_⟩
  rw [hc]
  push_cast
  omega

lemma quietIter_succ (M : ℚ) (s1 : FlapState) (k : Nat)
    (h1 : (quietIter M s1 k).flap_hold_cnt = 0)
    (h2 : (quietIter M s1 k).cmd_flap_trigger = false)
    (h3 : (quietIter M s1 k).flap_count_ms = max (7990 - 10 * (k : Int)) 0) :
    (quietIter M s1 (k + 1)).flap_hold_cnt = 0 ∧
    (quietIter M s1 (k + 1)).cmd_flap_trigger = false ∧
    (quietIter M s1 (k + 1)).flap_count_ms = max (7990 - 10 * ((k + 1 : Nat) : Int)) 0 := by
  have hff : flapFires (quietIter M s1 k) quiet = false :=
    flapFires_false _ _ h2 (by omega)
  have hnf := nofire_tick M (quietIter M s1 k) quiet hff
  refine ⟨?_, ?_, ?_⟩
  · simp only [quietIter, hnf.2.2.1, h1, quiet_hold_zero]
  · simp only [quietIter, hnf.2.1, h2]
  · simp only [quietIter, hnf.2.2.2.1, h3]
    push_cast
    omega

lemma quietIter_spec (M : ℚ) (s1 : FlapState)
    (h0 : s1.flap_hold_cnt = 0) (ht : s1.cmd_flap_trigger = false)
    (hc : s1.flap_count_ms = 7990) (k : Nat) :
    (quietIter M s1 k).flap_hold_cnt = 0 ∧
    (quietIter M s1 k).cmd_flap_trigger = false ∧
    (quietIter M s1 k).flap_count_ms = max (7990 - 10 * (k : Int)) 0 := by
  induction k with
  | zero => exact quietIter_zero M s1 h0 ht hc
  | succ k ih => exact quietIter_succ M s1 k ih.1 ih.2.1 ih.2.2

end VescFlap

namespace VescFlap

/-- Claim C1: the duty computed on a flap event is the linear map of the
drive state over 0 and 1 onto the interval from -M to +M — direction 1
yields duty +M and direction 0 yields duty -M for every max-duty magnitude
M — and that same value is sent both to CAN peer 99 and to the local
motor. -/
theorem c1_duty_linear_map (M : ℚ) (s : FlapState) (i : TickInput)
    (hf : flapFires s i = true) :
    flap_duty M 1 = M ∧ flap_duty M 0 = -M ∧
    Event.canSetDuty 99 (flap_duty M (flap_toggle s.flap_direction)) ∈ (tick M s i).2 ∧
    Event.motorSetDuty (flap_duty M (flap_toggle s.flap_direction)) ∈ (tick M s i).2 := by
  have h := fire_counts M s i hf
  refine ⟨?_, ?_, h.2.2.2.2.2.2.2.1, h.2.2.2.2.2.2.2.2⟩
  · simp [flap_duty, utils_map]
  · simp [flap_duty, utils_map]

/-- Witness for C1 at max duty 1, a pending trigger and no buttons. -/
theorem c1_duty_linear_map_witness :
    flapFires trigState quiet = true ∧
    (flap_duty 1 1 = 1 ∧ flap_duty 1 0 = -1 ∧
     Event.canSetDuty 99 (flap_duty 1 (flap_toggle trigState.flap_direction)) ∈
       (tick 1 trigState quiet).2 ∧
     Event.motorSetDuty (flap_duty 1 (flap_toggle trigState.flap_direction)) ∈
       (tick 1 trigState quiet).2) :=
  ⟨by decide, c1_duty_linear_map 1 trigState quiet (by decide)⟩

/-- Claim C2: a tick on which the flap hold counter goes from 10 to 11 with
the input held active performs exactly one toggle, exactly one CAN duty
command, exactly one local motor duty command, and resets the counter to 0
on that same tick. -/
theorem c2_threshold_crossing (M : ℚ) (s : FlapState) (i : TickInput)
    (h10 : s.flap_hold_cnt = 10) (hbtn : i.tx_pad = false) :
    countToggles (tick M s i).2 = 1 ∧
    List.countP isCanDutyEvt (tick M s i).2 = 1 ∧
    List.countP isMotorDutyEvt (tick M s i).2 = 1 ∧
    (tick M s i).1.flap_hold_cnt = 0 := by
  have hf : flapFires s i = true := by
    simp only [flapFires, hold_update, h10, hbtn]
    norm_num
  have h := fire_counts M s i hf
  exact ⟨h.1, h.2.1, h.2.2.1, h.2.2.2.1⟩

/-- Witness for C2: counter at 10 and the flap pad pulled low. -/
theorem c2_threshold_crossing_witness :
    cnt10State.flap_hold_cnt = 10 ∧ pressTx.tx_pad = false ∧
    (countToggles (tick 1 cnt10State pressTx).2 = 1 ∧
     List.countP isCanDutyEvt (tick 1 cnt10State pressTx).2 = 1 ∧
     List.countP isMotorDutyEvt (tick 1 cnt10State pressTx).2 = 1 ∧
     (tick 1 cnt10State pressTx).1.flap_hold_cnt = 0) :=
  ⟨by decide, rfl, c2_threshold_crossing 1 cnt10State pressTx (by decide) rfl⟩

/-- Claim C3: a pending external trigger fires the toggle on the next tick
evaluation even with the counter at 0, and is cleared by that tick, so the
immediately following tick (flag not re-set, counter under threshold)
performs no second toggle. -/
theorem c3_external_trigger (M : ℚ) (s0 : FlapState) (i1 i2 : TickInput)
    (_hcnt : s0.flap_hold_cnt = 0) :
    (flap_cmd s0).cmd_flap_trigger = true ∧
    countToggles (tick M (flap_cmd s0) i1).2 = 1 ∧
    (tick M (flap_cmd s0) i1).1.cmd_flap_trigger = false ∧
    countToggles (tick M (tick M (flap_cmd s0) i1).1 i2).2 = 0 := by
  have hf : flapFires (flap_cmd s0) i1 = true := by
    simp [flapFires, flap_cmd]
  have h := fire_counts M (flap_cmd s0) i1 hf
  have hle : (tick M (flap_cmd s0) i1).1.flap_hold_cnt ≤ 9 := by
    rw [h.2.2.2.1]
    omega
  have hff : flapFires (tick M (flap_cmd s0) i1).1 i2 = false :=
    flapFires_false _ _ h.2.2.2.2.1 hle
  exact ⟨rfl, h.1, h.2.2.2.2.1, (nofire_tick M _ i2 hff).1⟩

/-- Witness for C3 from the start state with quiet inputs on both ticks. -/
theorem c3_external_trigger_witness :
    initState.flap_hold_cnt = 0 ∧
    ((flap_cmd initState).cmd_flap_trigger = true ∧
     countToggles (tick 1 (flap_cmd initState) quiet).2 = 1 ∧
     (tick 1 (flap_cmd initState) quiet).1.cmd_flap_trigger = false ∧
     countToggles (tick 1 (tick 1 (flap_cmd initState) quiet).1 quiet).2 = 0) :=
  ⟨by decide, c3_external_trigger 1 initState quiet quiet (by decide)⟩

/-- Claim C4: each hold counter stays at least 0 and moves by at most 1 in
the counter-update step: +1 when its input is active, -1 when inactive and
positive, unchanged when inactive at 0; and a full tick keeps all three
counters nonnegative. -/
theorem c4_hold_counters (M : ℚ) (b : Bool) (c : Int) (hc : 0 ≤ c)
    (s : FlapState) (i : TickInput) (hs : countersNonneg s) :
    0 ≤ hold_update b c ∧
    (hold_update b c - c).natAbs ≤ 1 ∧
    (b = true → hold_update b c = c + 1) ∧
    (b = false → 0 < c → hold_update b c = c - 1) ∧
    (b = false → c = 0 → hold_update b c = c) ∧
    countersNonneg (tick M s i).1 := by
  obtain ⟨hs1, hs2, hs3⟩ := hs
  refine ⟨hold_update_nonneg b c hc, ?_, ?_, ?_, ?_, ?_⟩
  · unfold hold_update
    split
    · omega
    · split <;> omega
  · intro hb
    simp [hold_update, hb]
  · intro hb hpos
    simp [hold_update, hb, hpos]
  · intro hb hz
    simp [hold_update, hb, hz]
  · unfold countersNonneg
    simp only [tick]
    refine ⟨?_, ?_, ?_⟩ <;> split <;>
      first
        | omega
        | exact hold_update_nonneg _ _ hs1
        | exact hold_update_nonneg _ _ hs2
        | exact hold_update_nonneg _ _ hs3

/-- Witness for C4 with an active input on a zero counter. -/
theorem c4_hold_counters_witness :
    (0 : Int) ≤ 0 ∧ countersNonneg initState ∧
    (0 ≤ hold_update true 0 ∧
     (hold_update true 0 - 0).natAbs ≤ 1 ∧
     (true = true → hold_update true 0 = 0 + 1) ∧
     (true = false → 0 < (0 : Int) → hold_update true 0 = 0 - 1) ∧
     (true = false → (0 : Int) = 0 → hold_update true 0 = 0) ∧
     countersNonneg (tick 1 initState quiet).1) :=
  ⟨by decide, by decide, c4_hold_counters 1 true 0 (by decide) initState quiet (by decide)⟩

/-- Claim C5: a toggle leaves the countdown at 7990 after its own tick
(armed at 8000 and decremented once); each later quiet tick decrements it
by 10 while positive; from the 800th decrement on (798 quiet ticks after
the toggle tick) the tick forces the local motor duty to 0, and no quiet
tick before that does. -/
theorem c5_countdown (M : ℚ) (s : FlapState) (i : TickInput)
    (hf : flapFires s i = true) :
    (tick M s i).1.flap_count_ms = 7990 ∧
    (∀ k : Nat, (quietIter M (tick M s i).1 k).flap_count_ms =
      max (7990 - 10 * (k : Int)) 0) ∧
    (∀ k : Nat, countToggles (tick M (quietIter M (tick M s i).1 k) quiet).2 = 0) ∧
    (∀ k : Nat, 798 ≤ k →
      Event.motorSetDuty 0 ∈ (tick M (quietIter M (tick M s i).1 k) quiet).2) ∧
    (∀ k : Nat, k < 798 →
      Event.motorSetDuty 0 ∉ (tick M (quietIter M (tick M s i).1 k) quiet).2) := by
  have h := fire_counts M s i hf
  have hq := quietIter_spec M (tick M s i).1 h.2.2.2.1 h.2.2.2.2.1 h.2.2.2.2.2.1
  have hnf : ∀ k : Nat, flapFires (quietIter M (tick M s i).1 k) quiet = false := by
    intro k
    refine flapFires_false _ _ (hq k).2.1 ?_
    have := (hq k).1
    omega
  refine ⟨h.2.2.2.2.2.1, fun k => (hq k).2.2, fun k => (nofire_tick M _ quiet (hnf k)).1,
    ?_, ?_⟩
  · intro k hk
    refine ((nofire_tick M _ quiet (hnf k)).2.2.2.2).mpr ?_
    rw [(hq k).2.2]
    split <;> omega
  · intro k hk hmem
    have h2 := ((nofire_tick M _ quiet (hnf k)).2.2.2.2).mp hmem
    rw [(hq k).2.2] at h2
    split at h2 <;> omega

/-- Witness for C5 from a pending-trigger fire with quiet inputs after. -/
theorem c5_countdown_witness :
    flapFires trigState quiet = true ∧
    ((tick 1 trigState quiet).1.flap_count_ms = 7990 ∧
     (∀ k : Nat, (quietIter 1 (tick 1 trigState quiet).1 k).flap_count_ms =
       max (7990 - 10 * (k : Int)) 0) ∧
     (∀ k : Nat, countToggles (tick 1 (quietIter 1 (tick 1 trigState quiet).1 k) quiet).2 = 0) ∧
     (∀ k : Nat, 798 ≤ k →
       Event.motorSetDuty 0 ∈ (tick 1 (quietIter 1 (tick 1 trigState quiet).1 k) quiet).2) ∧
     (∀ k : Nat, k < 798 →
       Event.motorSetDuty 0 ∉ (tick 1 (quietIter 1 (tick 1 trigState quiet).1 k) quiet).2)) :=
  ⟨by decide, c5_countdown 1 trigState quiet (by decide)⟩

end VescFlap

namespace VescFlap

/-- Claim C6: every tick resets the external watchdog exactly once, and the
reset is the first firmware call of the iteration, before the pad samples
and all condition evaluations, whatever branches fire. -/
theorem c6_watchdog_every_tick (M : ℚ) (s : FlapState) (i : TickInput) :
    List.countP isTimeoutEvt (tick M s i).2 = 1 ∧
    ∃ rest, (tick M s i).2 =
      Event.timeoutReset ::
      Event.samplePad Pin.icu i.icu_pad ::
      Event.samplePad Pin.uart_rx i.rx_pad ::
      Event.samplePad Pin.uart_tx i.tx_pad :: rest := by
  constructor
  · cases hfl : flapFires s i <;> cases hr : rxFires s i <;> cases hp : pioFires s i <;>
      by_cases hz : countdown_after s i ≤ 0 <;>
        simp [tick, hfl, hr, hp, hz, flapBlock, rxBlock, pioBlock,
          isTimeoutEvt, List.countP_cons, List.countP_append]
  · exact ⟨_, rfl⟩

/-- Claim C7: the three conditions are evaluated unconditionally, in the
order flap, rxpin, pio, each computed from the counters this tick produced
with no mutual exclusion, and each firing branch contributes its own block
of calls — ending in its 500 ms hold — before the next condition's block. -/
theorem c7_condition_ordering (M : ℚ) (s : FlapState) (i : TickInput) :
    (tick M s i).2 =
      Event.timeoutReset ::
      Event.samplePad Pin.icu i.icu_pad ::
      Event.samplePad Pin.uart_rx i.rx_pad ::
      Event.samplePad Pin.uart_tx i.tx_pad ::
      ((if flapFires s i then flapBlock M s.flap_direction else []) ++
       (if rxFires s i then rxBlock else []) ++
       (if pioFires s i then pioBlock else []) ++
       (if countdown_after s i ≤ 0 then [Event.motorSetDuty 0] else []) ++
       [Event.sleepMs 10]) ∧
    flapFires s i =
      (decide (hold_update (!i.tx_pad) s.flap_hold_cnt > 10) || s.cmd_flap_trigger) ∧
    rxFires s i = decide (hold_update (!i.rx_pad) s.rxpin_hold_cnt > 5) ∧
    pioFires s i = decide (hold_update (!i.icu_pad) s.pio_hold_cnt > 5) ∧
    (flapBlock M s.flap_direction).getLast? = some (Event.sleepMs 500) ∧
    rxBlock.getLast? = some (Event.sleepMs 500) ∧
    pioBlock.getLast? = some (Event.sleepMs 500) := by
  refine ⟨rfl, rfl, rfl, rfl, ?_, ?_, ?_⟩ <;> rfl

/-- Claim C8: the toggle is an involution on the two drive-state values, and
one application always changes the direction. -/
theorem c8_toggle_involution (d : Int) (h : d = 0 ∨ d = 1) :
    flap_toggle (flap_toggle d) = d ∧ flap_toggle d ≠ d := by
  rcases h with rfl | rfl <;> exact ⟨by decide, by decide⟩

/-- Witness for C8 at the initial direction 0. -/
theorem c8_toggle_involution_witness :
    ((0 : Int) = 0 ∨ (0 : Int) = 1) ∧
    (flap_toggle (flap_toggle 0) = 0 ∧ flap_toggle 0 ≠ 0) :=
  ⟨Or.inl rfl, c8_toggle_involution 0 (Or.inl rfl)⟩

/-- Claim C9: the label logged after a toggle is "open" exactly when the new
direction is 1 — the value named FLAP_CLOSE — and "close" exactly when it
is 0, the value named FLAP_OPEN, so the logged label is inverted relative
to the named constants. -/
theorem c9_label_constant_inversion (d : Int) :
    (direction_label (flap_toggle d) = "open" ↔ flap_toggle d = FLAP_CLOSE) ∧
    (direction_label (flap_toggle d) = "close" ↔ flap_toggle d = FLAP_OPEN) ∧
    FLAP_OPEN = 0 ∧ FLAP_CLOSE = 1 := by
  by_cases hd : d = 0
  · subst hd
    decide
  · simp [flap_toggle, direction_label, FLAP_OPEN, FLAP_CLOSE, hd]

/-- Claim C10: when the flap condition fires with the counter over the
threshold while the external trigger is also set, that single tick performs
one toggle, clears the trigger and the counter, and quiet ticks afterwards
never toggle again — the pending trigger is consumed, not queued. -/
theorem c10_trigger_coalesced (M : ℚ) (s : FlapState) (i : TickInput)
    (hcnt : hold_update (!i.tx_pad) s.flap_hold_cnt > 10)
    (_htrig : s.cmd_flap_trigger = true) :
    countToggles (tick M s i).2 = 1 ∧
    (tick M s i).1.cmd_flap_trigger = false ∧
    (tick M s i).1.flap_hold_cnt = 0 ∧
    (∀ k : Nat, countToggles (tick M (quietIter M (tick M s i).1 k) quiet).2 = 0) := by
  have hf : flapFires s i = true := by
    simp [flapFires, hcnt]
  have h := fire_counts M s i hf
  have hq := quietIter_spec M (tick M s i).1 h.2.2.2.1 h.2.2.2.2.1 h.2.2.2.2.2.1
  refine ⟨h.1, h.2.2.2.2.1, h.2.2.2.1, fun k => ?_⟩
  refine (nofire_tick M _ quiet (flapFires_false _ _ (hq k).2.1 ?_)).1
  have := (hq k).1
  omega

/-- Witness for C10: counter at 20 with the pad released this tick (the
updated counter is 19, over the threshold) and the trigger pending. -/
theorem c10_trigger_coalesced_witness :
    hold_update (!quiet.tx_pad) cnt20TrigState.flap_hold_cnt > 10 ∧
    cnt20TrigState.cmd_flap_trigger = true ∧
    (countToggles (tick 1 cnt20TrigState quiet).2 = 1 ∧
     (tick 1 cnt20TrigState quiet).1.cmd_flap_trigger = false ∧
     (tick 1 cnt20TrigState quiet).1.flap_hold_cnt = 0 ∧
     (∀ k : Nat,
       countToggles (tick 1 (quietIter 1 (tick 1 cnt20TrigState quiet).1 k) quiet).2 = 0)) :=
  ⟨by decide, rfl, c10_trigger_coalesced 1 cnt20TrigState quiet (by decide) rfl⟩

end VescFlap
